import Mathlib

/-!
Verification of the GreenPulse dashboard pipeline (src/GREENPULSE/app.py).

The embedding models numeric values as rationals and time at hour
granularity: `currentTime : Int` counts whole hours since an epoch aligned
to midnight, so the local hour-of-day of a timestamp `t` is `t % 24`.
Randomness is injected: each random draw of the source becomes an explicit
parameter (or stream indexed by the loop variable), so every function is a
deterministic function of the draws, exactly as the source is for a fixed
random sequence.  Python's `round(x, n)` is modelled by `round2`/`round1`
(half rounds up rather than to even; no claim touches a tie).
-/

/-- Rounding to 2 decimal places, modelling Python `round(x, 2)`. -/
def round2 (x : ℚ) : ℚ := ((round (100 * x) : ℤ) : ℚ) / 100

/-- Rounding to 1 decimal place, modelling Python `round(x, 1)`. -/
def round1 (x : ℚ) : ℚ := ((round (10 * x) : ℤ) : ℚ) / 10

/-- One simulated hourly observation, as appended to `data` in
`generate_historical_data` (app.py lines 60-70).  `ts` is the timestamp in
whole hours; the display string `hour` of the source is derived from it. -/
structure Reading where
  ts : Int
  co : ℚ
  c6h6 : ℚ
  nox : ℚ
  no2 : ℚ
  temp : ℚ
  rh : ℚ
  score : ℚ
  deriving Repr, DecidableEq

/-- Base values of the generator (app.py lines 27-32). -/
def base_co : ℚ := 2.5

def base_c6h6 : ℚ := 8.0

def base_nox : ℚ := 200

def base_no2 : ℚ := 110

def base_temp : ℚ := 22

def base_rh : ℚ := 50

/-- Traffic factor by local hour-of-day (app.py lines 39-44). -/
def traffic_factor (hour : ℕ) : ℚ :=
  if (7 ≤ hour ∧ hour ≤ 9) ∨ (17 ≤ hour ∧ hour ≤ 19) then 1.5
  else if 22 ≤ hour ∨ hour ≤ 5 then 0.6
  else 1.0

/-- Unrounded pollutant values of one reading (app.py lines 49-52):
base value times traffic factor times the reading's shared noise draw. -/
def rawCo (tf n : ℚ) : ℚ := base_co * tf * n

def rawC6h6 (tf n : ℚ) : ℚ := base_c6h6 * tf * n

def rawNox (tf n : ℚ) : ℚ := base_nox * tf * n

def rawNo2 (tf n : ℚ) : ℚ := base_no2 * tf * n

/-- `pollutant_avg` (app.py line 57). -/
def pollutant_avg (co c6h6 nox no2 : ℚ) : ℚ :=
  (co / 5 + c6h6 / 15 + nox / 400 + no2 / 200) / 4

/-- The emission score before clamping, `10 * (1 - pollutant_avg)`
(app.py line 58, inner expression). -/
def raw_score (co c6h6 nox no2 : ℚ) : ℚ :=
  10 * (1 - pollutant_avg co c6h6 nox no2)

/-- `score = max(0, min(10, 10 * (1 - pollutant_avg)))` (app.py line 58). -/
def emission_score (co c6h6 nox no2 : ℚ) : ℚ :=
  max 0 (min 10 (raw_score co c6h6 nox no2))

/-- One iteration of the loop of `generate_historical_data`
(app.py lines 34-70): the reading for offset `i`, given the three random
draws of that iteration (`n` for the shared pollutant noise, `tn` for the
temperature draw, `rn` for the humidity draw). -/
def mkReading (currentTime : Int) (i : ℕ) (n tn rn : ℚ) : Reading :=
  let ts := currentTime - (i : Int)
  let hour := (ts % 24).toNat
  let tf := traffic_factor hour
  let co := rawCo tf n
  let c6h6 := rawC6h6 tf n
  let nox := rawNox tf n
  let no2 := rawNo2 tf n
  let temp := base_temp + tn
  let rh := base_rh + rn
  let score := emission_score co c6h6 nox no2
  { ts := ts
    co := round2 co
    c6h6 := round2 c6h6
    nox := round2 nox
    no2 := round2 no2
    temp := round1 temp
    rh := round1 rh
    score := round2 score }

/-- `generate_historical_data(hours)` (app.py lines 21-72).  The loop runs
`i` from `hours` down to `1`; element `k` of the result is the iteration
with `i = hours - k`.  The random streams are indexed by `i`. -/
def generate_historical_data (currentTime : Int) (hours : ℕ)
    (noise tn rn : ℕ → ℚ) : List Reading :=
  (List.range hours).map fun k =>
    mkReading currentTime (hours - k) (noise (hours - k)) (tn (hours - k))
      (rn (hours - k))

/-- The `current_data` dict passed to `prepare_features`
(app.py lines 137-147): the latest reading's fields plus wall-clock time
fields. -/
structure CurrentData where
  co : ℚ
  c6h6 : ℚ
  nox : ℚ
  no2 : ℚ
  temp : ℚ
  rh : ℚ
  hour_num : ℚ
  day_of_week : ℚ
  month : ℚ
  deriving Repr, DecidableEq

/-- The `lag_data_dict` dict (app.py lines 149-156). -/
structure LagData where
  co : ℚ
  c6h6 : ℚ
  nox : ℚ
  no2 : ℚ
  temp : ℚ
  rh : ℚ
  deriving Repr, DecidableEq

/-- A rolling-average dict, `rolling_3h` / `rolling_6h`
(app.py lines 126-133). -/
structure Rolling where
  co : ℚ
  nox : ℚ
  deriving Repr, DecidableEq

/-- The guarded NO2/NOx ratio (app.py line 79). -/
def no2_nox_ratio (current_data : CurrentData) : ℚ :=
  if current_data.nox > 0 then current_data.no2 / current_data.nox else 0

/-- `prepare_features` (app.py lines 75-100): the 16-entry feature vector,
in source order. -/
def prepare_features (current_data : CurrentData) (lag_data : LagData)
    (rolling_3h rolling_6h : Rolling) : List ℚ :=
  [ current_data.temp
  , current_data.rh
  , current_data.hour_num
  , current_data.day_of_week
  , current_data.month
  , lag_data.co
  , lag_data.c6h6
  , lag_data.nox
  , lag_data.no2
  , lag_data.temp
  , lag_data.rh
  , rolling_3h.co
  , rolling_6h.co
  , rolling_3h.nox
  , rolling_6h.nox
  , no2_nox_ratio current_data ]

/-- `np.mean` over a list of rationals. -/
def listMean (l : List ℚ) : ℚ := l.sum / (l.length : ℚ)

/-- The status/color band of a score (app.py lines 171-179 and,
identically, 181-189). -/
def classifyScore (s : ℚ) : String × String :=
  if s ≥ 6.5 then ("Safe", "green")
  else if s ≥ 4.0 then ("Moderate", "yellow")
  else ("High Emissions", "red")

/-- The prediction part of `refresh_data` (app.py lines 115-167): selects
`current = historical[-1]`, and when at least 6 readings exist and both
artifacts are loaded, builds lag and rolling features and scores the
clamped model output; otherwise falls back to `current.score * jitter`.
`none` models the `IndexError` Python would raise on an empty list. -/
def predicted_score (model : Option (List ℚ → ℚ))
    (scaler : Option (List ℚ → List ℚ)) (historical : List Reading)
    (nowHour nowDow nowMonth : ℕ) (jitter : ℚ) : Option ℚ :=
  match historical.getLast? with
  | none => none
  | some current =>
    if 6 ≤ historical.length then
      match model, scaler with
      | some predict, some transform =>
        match historical[historical.length - 2]? with
        | none => none
        | some lag =>
          let last3 := historical.drop (historical.length - 3)
          let last6 := historical.drop (historical.length - 6)
          let rolling_3h : Rolling :=
            { co := listMean (last3.map Reading.co)
              nox := listMean (last3.map Reading.nox) }
          let rolling_6h : Rolling :=
            { co := listMean (last6.map Reading.co)
              nox := listMean (last6.map Reading.nox) }
          let current_data : CurrentData :=
            { co := current.co, c6h6 := current.c6h6, nox := current.nox
              no2 := current.no2, temp := current.temp, rh := current.rh
              hour_num := (nowHour : ℚ), day_of_week := (nowDow : ℚ)
              month := (nowMonth : ℚ) }
          let lag_data : LagData :=
            { co := lag.co, c6h6 := lag.c6h6, nox := lag.nox
              no2 := lag.no2, temp := lag.temp, rh := lag.rh }
          let features :=
            prepare_features current_data lag_data rolling_3h rolling_6h
          some (max 0 (min 10 (predict (transform features))))
      | _, _ => some (current.score * jitter)
    else some (current.score * jitter)

/-- The `current` object of the success payload (app.py lines 193-203). -/
structure CurrentOut where
  score : ℚ
  status : String
  color : String
  timestamp : Int
  co : ℚ
  nox : ℚ
  no2 : ℚ
  temp : ℚ
  rh : ℚ
  deriving Repr, DecidableEq

/-- The `prediction` object of the success payload
(app.py lines 204-208). -/
structure PredictionOut where
  score : ℚ
  status : String
  color : String
  deriving Repr, DecidableEq

/-- The fields of the success payload besides the `success` flag
(app.py lines 191-215); `historical` carries (timestamp, score) pairs. -/
structure SuccessBody where
  current : CurrentOut
  prediction : PredictionOut
  historical : List (Int × ℚ)
  deriving Repr, DecidableEq

/-- Assembles the success payload (app.py lines 169-215) from the
generated history, the current reading, and the predicted score. -/
def make_success_body (historical : List Reading) (current : Reading)
    (predicted : ℚ) : SuccessBody :=
  { current :=
      { score := round2 current.score
        status := (classifyScore current.score).1
        color := (classifyScore current.score).2
        timestamp := current.ts
        co := current.co, nox := current.nox, no2 := current.no2
        temp := current.temp, rh := current.rh }
    prediction :=
      { score := round2 predicted
        status := (classifyScore predicted).1
        color := (classifyScore predicted).2 }
    historical := historical.map fun r => (r.ts, r.score) }

/-- The body of the `try` block of `refresh_data` (app.py lines 110-215):
generate 24 readings, score, and assemble the payload.  `none` models an
`IndexError` from indexing an empty history (unreachable for 24 hours). -/
def refresh_try_block (model : Option (List ℚ → ℚ))
    (scaler : Option (List ℚ → List ℚ)) (currentTime : Int)
    (nowHour nowDow nowMonth : ℕ) (noise tn rn : ℕ → ℚ) (jitter : ℚ) :
    Option SuccessBody :=
  let historical := generate_historical_data currentTime 24 noise tn rn
  match historical.getLast? with
  | none => none
  | some current =>
    (predicted_score model scaler historical nowHour nowDow nowMonth
        jitter).map
      (make_success_body historical current)

/-- The wire-level response: success flag, optional payload, optional
error message, HTTP status. -/
structure ApiResponse where
  success : Bool
  body : Option SuccessBody
  error : Option String
  httpStatus : ℕ
  deriving Repr, DecidableEq

/-- The `try`/`except` boundary of `refresh_data` (app.py lines 110 and
217-222): a normally-completed body is returned with `success: true`
(HTTP 200, Flask's default); an exception is surfaced as
`{success: false, error: message}` with HTTP 500. -/
def handle_refresh : Except String SuccessBody → ApiResponse
  | .ok b => { success := true, body := some b, error := none, httpStatus := 200 }
  | .error e => { success := false, body := none, error := some e, httpStatus := 500 }

/-- A concrete `current_data` input with zero NOx, used as a concrete
evaluation point. -/
def zeroNoxCurrentData : CurrentData :=
  { co := 1, c6h6 := 1, nox := 0, no2 := 3, temp := 1, rh := 1,
    hour_num := 1, day_of_week := 1, month := 1 }

/-- A concrete reading used as a concrete evaluation point. -/
def sampleReading : Reading :=
  { ts := 0, co := 1, c6h6 := 1, nox := 1, no2 := 1, temp := 1, rh := 1,
    score := 5 }

/-! ### Helper lemmas -/

theorem round2_nonneg {x : ℚ} (hx : 0 ≤ x) : 0 ≤ round2 x := by
  unfold round2
  have h1 : (0 : ℤ) ≤ round (100 * x) := by
    rw [round_eq]
    exact Int.le_floor.mpr (by push_cast; linarith)
  exact div_nonneg (by exact_mod_cast h1) (by norm_num)

theorem round2_le_ten {x : ℚ} (hx : x ≤ 10) : round2 x ≤ 10 := by
  unfold round2
  have h1 : round (100 * x) ≤ 1000 := by
    rw [round_eq]
    have : (⌊100 * x + 1 / 2⌋ : ℤ) < 1001 :=
      Int.floor_lt.mpr (by push_cast; linarith)
    omega
  rw [div_le_iff₀ (by norm_num : (0:ℚ) < 100)]
  calc ((round (100 * x) : ℤ) : ℚ) ≤ 1000 := by exact_mod_cast h1
    _ = 10 * 100 := by norm_num

theorem clamp_eq_of_bounds {r : ℚ} (h0 : 0 ≤ r) (h10 : r ≤ 10) :
    max 0 (min 10 r) = r := by
  rw [min_eq_right h10, max_eq_right h0]

/-! ### Claim theorems -/

/-- C1: for every input, `prepare_features` returns a vector of exactly 16
entries in the exact order temp, rh, hour_num, day_of_week, month, lag.co,
lag.c6h6, lag.nox, lag.no2, lag.temp, lag.rh, rolling_3h.co,
rolling_6h.co, rolling_3h.nox, rolling_6h.nox, no2_nox_ratio. -/
theorem c1_prepare_features_16_ordered (c : CurrentData) (l : LagData)
    (r3 r6 : Rolling) :
    (prepare_features c l r3 r6).length = 16 ∧
    (prepare_features c l r3 r6)[0]! = c.temp ∧
    (prepare_features c l r3 r6)[1]! = c.rh ∧
    (prepare_features c l r3 r6)[2]! = c.hour_num ∧
    (prepare_features c l r3 r6)[3]! = c.day_of_week ∧
    (prepare_features c l r3 r6)[4]! = c.month ∧
    (prepare_features c l r3 r6)[5]! = l.co ∧
    (prepare_features c l r3 r6)[6]! = l.c6h6 ∧
    (prepare_features c l r3 r6)[7]! = l.nox ∧
    (prepare_features c l r3 r6)[8]! = l.no2 ∧
    (prepare_features c l r3 r6)[9]! = l.temp ∧
    (prepare_features c l r3 r6)[10]! = l.rh ∧
    (prepare_features c l r3 r6)[11]! = r3.co ∧
    (prepare_features c l r3 r6)[12]! = r6.co ∧
    (prepare_features c l r3 r6)[13]! = r3.nox ∧
    (prepare_features c l r3 r6)[14]! = r6.nox ∧
    (prepare_features c l r3 r6)[15]! = no2_nox_ratio c := by
  refine ⟨rfl, ?_, ?_, ?_, ?_, ?_, ?_, ?_, ?_, ?_, ?_, ?_, ?_, ?_, ?_, ?_, ?_⟩ <;>
    simp [prepare_features]

/-- C5: the status/color classification maps `s ≥ 6.5` to (Safe, green),
`4.0 ≤ s < 6.5` to (Moderate, yellow), `s < 4.0` to
(High Emissions, red); exactly 6.5 is Safe and exactly 4.0 is Moderate. -/
theorem c5_classification_bands (s : ℚ) :
    (6.5 ≤ s → classifyScore s = ("Safe", "green")) ∧
    (4.0 ≤ s → s < 6.5 → classifyScore s = ("Moderate", "yellow")) ∧
    (s < 4.0 → classifyScore s = ("High Emissions", "red")) ∧
    classifyScore 6.5 = ("Safe", "green") ∧
    classifyScore 4.0 = ("Moderate", "yellow") := by
  refine ⟨?_, ?_, ?_, ?_, ?_⟩
  · intro h
    simp [classifyScore, h]
  · intro h1 h2
    rw [classifyScore, if_neg (by simpa using h2.not_le), if_pos (by simpa using h1)]
  · intro h
    rw [classifyScore, if_neg (by norm_num; linarith), if_neg (by simpa using h.not_le)]
  · norm_num [classifyScore]
  · rw [classifyScore, if_neg (by norm_num), if_pos (by norm_num)]

theorem c5_classification_bands_witness :
    (4.0 : ℚ) ≤ 5 ∧ (5 : ℚ) < 6.5 ∧ classifyScore 5 = ("Moderate", "yellow") :=
  ⟨by norm_num, by norm_num,
    (c5_classification_bands 5).2.1 (by norm_num) (by norm_num)⟩

/-- C6: for every local hour-of-day 0-23, the traffic factor is 1.5 on
[7,9] and [17,19], 0.6 for hour ≥ 22 or ≤ 5, and 1.0 otherwise; hours 9,
10, 22, 5, 6 give 1.5, 1.0, 0.6, 0.6, 1.0 respectively. -/
theorem c6_traffic_factor_bands (h : ℕ) (hlt : h < 24) :
    ((7 ≤ h ∧ h ≤ 9) ∨ (17 ≤ h ∧ h ≤ 19) → traffic_factor h = 1.5) ∧
    (22 ≤ h ∨ h ≤ 5 → traffic_factor h = 0.6) ∧
    (¬((7 ≤ h ∧ h ≤ 9) ∨ (17 ≤ h ∧ h ≤ 19)) → ¬(22 ≤ h ∨ h ≤ 5) →
      traffic_factor h = 1.0) ∧
    traffic_factor 9 = 1.5 ∧ traffic_factor 10 = 1.0 ∧
    traffic_factor 22 = 0.6 ∧ traffic_factor 5 = 0.6 ∧
    traffic_factor 6 = 1.0 := by
  revert hlt
  revert h
  intro h hlt
  interval_cases h <;> norm_num [traffic_factor]

theorem c6_traffic_factor_bands_witness :
    (9 : ℕ) < 24 ∧ traffic_factor 9 = 1.5 :=
  ⟨by decide, (c6_traffic_factor_bands 9 (by decide)).2.2.2.1⟩

/-- C8: the NO2/NOx ratio equals no2/nox when nox > 0 and 0 otherwise
(including nox = 0 or negative), so the guarded division never has a zero
divisor. -/
theorem c8_no2_nox_ratio_guard (c : CurrentData) :
    (0 < c.nox → no2_nox_ratio c = c.no2 / c.nox) ∧
    (c.nox ≤ 0 → no2_nox_ratio c = 0) := by
  constructor
  · intro h
    rw [no2_nox_ratio, if_pos h]
  · intro h
    rw [no2_nox_ratio, if_neg (not_lt.mpr h)]

theorem c8_no2_nox_ratio_guard_witness :
    zeroNoxCurrentData.nox ≤ 0 ∧ no2_nox_ratio zeroNoxCurrentData = 0 :=
  ⟨by norm_num [zeroNoxCurrentData],
    (c8_no2_nox_ratio_guard zeroNoxCurrentData).2
      (by norm_num [zeroNoxCurrentData])⟩

/-- C7: within one reading a single noise draw multiplies all four
pollutant bases, so the unrounded pollutants satisfy
co/2.5 = c6h6/8.0 = nox/200 = no2/110 (all equal the shared tf*n); the
reading's stored pollutants are exactly the rounded raw values; pollutants
do not depend on the temp/rh draws and temp/rh do not depend on the
pollutant noise draw. -/
theorem c7_shared_noise_draw (ct : Int) (i : ℕ) (tf n n2 tn tn2 rn rn2 : ℚ) :
    rawCo tf n / 2.5 = tf * n ∧
    rawC6h6 tf n / 8.0 = tf * n ∧
    rawNox tf n / 200 = tf * n ∧
    rawNo2 tf n / 110 = tf * n ∧
    (mkReading ct i n tn rn).co =
      round2 (rawCo (traffic_factor ((ct - (i : Int)) % 24).toNat) n) ∧
    (mkReading ct i n tn rn).c6h6 =
      round2 (rawC6h6 (traffic_factor ((ct - (i : Int)) % 24).toNat) n) ∧
    (mkReading ct i n tn rn).nox =
      round2 (rawNox (traffic_factor ((ct - (i : Int)) % 24).toNat) n) ∧
    (mkReading ct i n tn rn).no2 =
      round2 (rawNo2 (traffic_factor ((ct - (i : Int)) % 24).toNat) n) ∧
    (mkReading ct i n tn rn).temp = round1 (base_temp + tn) ∧
    (mkReading ct i n tn rn).rh = round1 (base_rh + rn) ∧
    (mkReading ct i n tn2 rn2).co = (mkReading ct i n tn rn).co ∧
    (mkReading ct i n tn2 rn2).c6h6 = (mkReading ct i n tn rn).c6h6 ∧
    (mkReading ct i n tn2 rn2).nox = (mkReading ct i n tn rn).nox ∧
    (mkReading ct i n tn2 rn2).no2 = (mkReading ct i n tn rn).no2 ∧
    (mkReading ct i n2 tn rn).temp = (mkReading ct i n tn rn).temp ∧
    (mkReading ct i n2 tn rn).rh = (mkReading ct i n tn rn).rh := by
  refine ⟨?_, ?_, ?_, ?_, rfl, rfl, rfl, rfl, rfl, rfl, rfl, rfl, rfl, rfl,
    rfl, rfl⟩ <;>
  · simp only [rawCo, rawC6h6, rawNox, rawNo2, base_co, base_c6h6, base_nox,
      base_no2]
    ring

/-- C2: every generated reading's score is the clamp
max(0, min(10, 10 * (1 - pollutant_avg))) of the unrounded pollutant
values (rounded to 2 decimals on emission), hence always lies in [0, 10]
for every noise draw, and does not depend on the temp/rh draws. -/
theorem c2_emission_score_clamped (ct : Int) (i : ℕ) (n tn rn tn2 rn2 : ℚ) :
    (mkReading ct i n tn rn).score =
      round2 (max 0 (min 10 (10 * (1 -
        (rawCo (traffic_factor ((ct - (i : Int)) % 24).toNat) n / 5 +
         rawC6h6 (traffic_factor ((ct - (i : Int)) % 24).toNat) n / 15 +
         rawNox (traffic_factor ((ct - (i : Int)) % 24).toNat) n / 400 +
         rawNo2 (traffic_factor ((ct - (i : Int)) % 24).toNat) n / 200)
          / 4)))) ∧
    0 ≤ (mkReading ct i n tn rn).score ∧
    (mkReading ct i n tn rn).score ≤ 10 ∧
    (mkReading ct i n tn2 rn2).score = (mkReading ct i n tn rn).score := by
  refine ⟨rfl, ?_, ?_, rfl⟩
  · exact round2_nonneg (le_max_left _ _)
  · exact round2_le_ten (max_le (by norm_num) (min_le_left _ _))

/-- C10: for every traffic factor in {0.6, 1.0, 1.5} and every noise draw
in [0.85, 1.15], the unclamped score 10 * (1 - pollutant_avg) lies
strictly between 0 and 10 (indeed in [65/64, 235/32], about 1.02 to
7.34), so the clamp is never active on generated data; and the traffic
factor of every hour is one of 0.6, 1.0, 1.5. -/
theorem c10_clamp_never_active (tf n : ℚ)
    (htf : tf = 0.6 ∨ tf = 1.0 ∨ tf = 1.5)
    (hn1 : 0.85 ≤ n) (hn2 : n ≤ 1.15) :
    (0 < raw_score (rawCo tf n) (rawC6h6 tf n) (rawNox tf n) (rawNo2 tf n) ∧
     raw_score (rawCo tf n) (rawC6h6 tf n) (rawNox tf n) (rawNo2 tf n)
       < 10) ∧
    (65/64 ≤ raw_score (rawCo tf n) (rawC6h6 tf n) (rawNox tf n)
       (rawNo2 tf n) ∧
     raw_score (rawCo tf n) (rawC6h6 tf n) (rawNox tf n) (rawNo2 tf n)
       ≤ 235/32) ∧
    emission_score (rawCo tf n) (rawC6h6 tf n) (rawNox tf n) (rawNo2 tf n) =
      raw_score (rawCo tf n) (rawC6h6 tf n) (rawNox tf n) (rawNo2 tf n) ∧
    (∀ hr : ℕ, traffic_factor hr = 0.6 ∨ traffic_factor hr = 1.0 ∨
      traffic_factor hr = 1.5) := by
  have key : 65/64 ≤ raw_score (rawCo tf n) (rawC6h6 tf n) (rawNox tf n)
      (rawNo2 tf n) ∧
      raw_score (rawCo tf n) (rawC6h6 tf n) (rawNox tf n) (rawNo2 tf n)
        ≤ 235/32 := by
    rcases htf with h | h | h <;> subst h <;>
      constructor <;>
      · simp only [raw_score, pollutant_avg, rawCo, rawC6h6, rawNox, rawNo2,
          base_co, base_c6h6, base_nox, base_no2]
        nlinarith [hn1, hn2]
  refine ⟨⟨by linarith [key.1], by linarith [key.2]⟩, key, ?_, ?_⟩
  · unfold emission_score
    exact clamp_eq_of_bounds (by linarith [key.1]) (by linarith [key.2])
  · intro hr
    unfold traffic_factor
    split_ifs <;> norm_num

theorem c10_clamp_never_active_witness :
    ((1.0 : ℚ) = 0.6 ∨ (1.0 : ℚ) = 1.0 ∨ (1.0 : ℚ) = 1.5) ∧
    (0.85 : ℚ) ≤ 1 ∧ (1 : ℚ) ≤ 1.15 ∧
    0 < raw_score (rawCo 1.0 1) (rawC6h6 1.0 1) (rawNox 1.0 1)
      (rawNo2 1.0 1) :=
  ⟨Or.inr (Or.inl rfl), by norm_num, by norm_num,
    (c10_clamp_never_active 1.0 1 (Or.inr (Or.inl rfl)) (by norm_num)
      (by norm_num)).1.1⟩

/-- C3: for every positive `hours`, the generated sequence has exactly
`hours` readings; element k has timestamp now - hours + k, so timestamps
are strictly increasing, spaced exactly one hour apart, oldest first,
covering now - hours through now - 1 (the current instant excluded). -/
theorem c3_generate_series_shape (now : Int) (hours : ℕ) (hpos : 0 < hours)
    (noise tn rn : ℕ → ℚ) :
    (generate_historical_data now hours noise tn rn).length = hours ∧
    (∀ k, k < hours →
      ((generate_historical_data now hours noise tn rn)[k]?).map Reading.ts
        = some (now - hours + k)) ∧
    (∀ k, k + 1 < hours →
      ∃ a b, (generate_historical_data now hours noise tn rn)[k]? = some a ∧
        (generate_historical_data now hours noise tn rn)[k + 1]? = some b ∧
        b.ts = a.ts + 1) ∧
    ((generate_historical_data now hours noise tn rn)[0]?).map Reading.ts
      = some (now - hours) ∧
    ((generate_historical_data now hours noise tn
        rn)[hours - 1]?).map Reading.ts = some (now - 1) := by
  have hget : ∀ k, k < hours →
      (generate_historical_data now hours noise tn rn)[k]? =
        some (mkReading now (hours - k) (noise (hours - k)) (tn (hours - k))
          (rn (hours - k))) := by
    intro k hk
    simp [generate_historical_data, List.getElem?_map, List.getElem?_range,
      hk]
  have hts : ∀ k, k < hours →
      (mkReading now (hours - k) (noise (hours - k)) (tn (hours - k))
        (rn (hours - k))).ts = now - hours + k := by
    intro k hk
    show now - ((hours - k : ℕ) : Int) = now - hours + k
    omega
  refine ⟨by simp [generate_historical_data], ?_, ?_, ?_, ?_⟩
  · intro k hk
    rw [hget k hk, Option.map_some']
    rw [hts k hk]
  · intro k hk
    refine ⟨_, _, hget k (by omega), hget (k + 1) hk, ?_⟩
    rw [hts k (by omega), hts (k + 1) hk]
    push_cast
    ring
  · rw [hget 0 hpos, Option.map_some', hts 0 hpos]
    simp
  · rw [hget (hours - 1) (by omega), Option.map_some',
      hts (hours - 1) (by omega)]
    congr 1
    omega

theorem c3_generate_series_shape_witness :
    0 < 2 ∧
    (generate_historical_data 0 2 (fun _ => 1) (fun _ => 1)
      (fun _ => 1)).length = 2 :=
  ⟨by decide,
    (c3_generate_series_shape 0 2 (by decide) (fun _ => 1) (fun _ => 1)
      (fun _ => 1)).1⟩

/-- C4: with fewer than 6 readings, or with the model or scaler absent,
the pipeline returns the unclamped fallback current.score * jitter for
every choice of model/scaler functions (so transform/predict are never
invoked); with both artifacts present and at least 6 readings, the result
is the clamp of model.predict(scaler.transform(vector)). -/
theorem c4_model_gate (model : Option (List ℚ → ℚ))
    (scaler : Option (List ℚ → List ℚ)) (historical : List Reading)
    (current : Reading) (nowHour nowDow nowMonth : ℕ) (jitter : ℚ)
    (hcur : historical.getLast? = some current) :
    (historical.length < 6 →
      predicted_score model scaler historical nowHour nowDow nowMonth jitter
        = some (current.score * jitter)) ∧
    (model = none ∨ scaler = none →
      predicted_score model scaler historical nowHour nowDow nowMonth jitter
        = some (current.score * jitter)) ∧
    (∀ (predict : List ℚ → ℚ) (transform : List ℚ → List ℚ) (lag : Reading),
      model = some predict → scaler = some transform →
      6 ≤ historical.length →
      historical[historical.length - 2]? = some lag →
      predicted_score model scaler historical nowHour nowDow nowMonth jitter
        = some (max 0 (min 10 (predict (transform (prepare_features
            ⟨current.co, current.c6h6, current.nox, current.no2,
              current.temp, current.rh, (nowHour : ℚ), (nowDow : ℚ),
              (nowMonth : ℚ)⟩
            ⟨lag.co, lag.c6h6, lag.nox, lag.no2, lag.temp, lag.rh⟩
            ⟨listMean ((historical.drop (historical.length - 3)).map
                Reading.co),
              listMean ((historical.drop (historical.length - 3)).map
                Reading.nox)⟩
            ⟨listMean ((historical.drop (historical.length - 6)).map
                Reading.co),
              listMean ((historical.drop (historical.length - 6)).map
                Reading.nox)⟩)))))) := by
  refine ⟨?_, ?_, ?_⟩
  · intro hlen
    simp only [predicted_score, hcur]
    rw [if_neg (by omega)]
  · intro hms
    simp only [predicted_score, hcur]
    rcases hms with h | h
    · subst h
      rcases scaler with _ | t <;> split_ifs <;> rfl
    · subst h
      rcases model with _ | p <;> split_ifs <;> rfl
  · intro predict transform lag hm hs hlen hlag
    subst hm
    subst hs
    simp only [predicted_score, hcur, hlag, if_pos hlen]

theorem c4_model_gate_witness :
    ([sampleReading].getLast? = some sampleReading) ∧
    ([sampleReading] : List Reading).length < 6 ∧
    predicted_score (some fun v => v.sum) (some fun v => v) [sampleReading]
      0 0 1 1 = some (sampleReading.score * 1) :=
  ⟨by simp, by decide,
    (c4_model_gate (some fun v => v.sum) (some fun v => v) [sampleReading]
      sampleReading 0 0 1 1 (by simp)).1 (by decide)⟩

/-- C9: an exception during generation or scoring is surfaced exactly as
success = false with the error message and HTTP 500, never a partial
success body; a normal run returns success = true with HTTP 200 and a
payload holding current, prediction, and a historical list of exactly the
24 requested entries. -/
theorem c9_request_boundary (e : String) (model : Option (List ℚ → ℚ))
    (scaler : Option (List ℚ → List ℚ)) (currentTime : Int)
    (nowHour nowDow nowMonth : ℕ) (noise tn rn : ℕ → ℚ) (jitter : ℚ) :
    handle_refresh (Except.error e) =
      { success := false, body := none, error := some e,
        httpStatus := 500 } ∧
    ∃ b, refresh_try_block model scaler currentTime nowHour nowDow nowMonth
        noise tn rn jitter = some b ∧
      handle_refresh (Except.ok b) =
        { success := true, body := some b, error := none,
          httpStatus := 200 } ∧
      b.historical.length = 24 := by
  constructor
  · rfl
  · set historical := generate_historical_data currentTime 24 noise tn rn
      with hh
    have hlen : historical.length = 24 := by
      simp [hh, generate_historical_data]
    have hne : historical ≠ [] := by
      intro hnil
      rw [hnil] at hlen
      simp at hlen
    obtain ⟨cur, hcur⟩ := Option.isSome_iff_exists.mp
      (List.getLast?_isSome.mpr hne)
    have hps : (predicted_score model scaler historical nowHour nowDow
        nowMonth jitter).isSome := by
      simp only [predicted_score, hcur]
      rw [if_pos (show 6 ≤ historical.length by omega)]
      rcases model with _ | p <;> rcases scaler with _ | t
      · rfl
      · rfl
      · rfl
      · obtain ⟨lag, hlag⟩ : ∃ lg,
            historical[historical.length - 2]? = some lg :=
          ⟨_, List.getElem?_eq_getElem (by omega)⟩
        rw [hlag]
        rfl
    obtain ⟨v, hv⟩ := Option.isSome_iff_exists.mp hps
    refine ⟨make_success_body historical cur v, ?_, rfl, ?_⟩
    · simp only [refresh_try_block, ← hh, hcur, hv, Option.map_some']
    · simp [make_success_body, hlen]
